import Mathlib

/- Verification development for the events_api backend: a shallow embedding of the
authentication / token-lifecycle subsystem (src/security/jwt_service.py,
src/security/token_cache.py, src/user_auth/routers.py, src/user_auth/utils.py)
and of the bulk event-ingestion path (src/endpoint_events/routers.py,
src/endpoint_events/cli_utils.py), together with theorems about the claims of
the specification.  Time is modelled as an explicit integer Unix timestamp
passed to every operation that reads the clock. -/

namespace EventsApi

/-- HTTP error raised by a handler: models fastapi.HTTPException(status_code, detail). -/
structure HttpError where
  status : Nat
  detail : String
deriving DecidableEq, Repr

/-- JWT claims set.  In `_jwt_common_claims` (jwt_service.py) the dict initially has no
"exp"; the `make_*_token` functions add it, so here `exp` is filled by the caller. -/
structure Claims where
  sub : String
  type : String
  jti : String
  iat : Int
  iss : String
  aud : String
  exp : Int
deriving DecidableEq, Repr

/-- A signed JWT, modelled symbolically: the claims plus the signing key and algorithm
(`jwt.encode(claims, secret, algorithm=alg)`).  Signature verification with key `k`
succeeds exactly when `k` equals the signing key. -/
structure Token where
  claims : Claims
  key : String
  alg : String
deriving DecidableEq, Repr

/-- The settings fields used by the jwt service (src/config.py defaults:
ACCESS_SECRET="access-secret", REFRESH_SECRET="refresh-secret", JWT_ALG="HS256"). -/
structure Settings where
  ACCESS_SECRET : String
  REFRESH_SECRET : String
  JWT_ALG : String
deriving DecidableEq, Repr

/-- Model of `jwt.decode(token, key, algorithms=["HS256"], audience, issuer,
options={"require": ["exp","sub","type","jti"]})` (PyJWT): the signature must verify
(symbolically: the key and algorithm match), the `aud` and `iss` claims must equal the
expected values, and the token must not be expired (PyJWT raises ExpiredSignatureError
when `exp <= now`, leeway 0).  The required claims are always present in this model.
`none` stands for any `jwt.exceptions.InvalidTokenError`. -/
def jwtDecode (tok : Token) (key : String) (audience : String) (issuer : String)
    (now : Int) : Option Claims :=
  if tok.alg = "HS256" ∧ tok.key = key ∧ tok.claims.aud = audience ∧
      tok.claims.iss = issuer ∧ now < tok.claims.exp
  then some tok.claims else none

/-- `_jwt_common_claims` (jwt_service.py lines 25-35): note the audience literal is
"auth_api". The `exp` field is a placeholder overwritten by the caller. -/
def jwtCommonClaims (now : Int) (sub : String) (tokenType : String) (jti : String) :
    Claims :=
  { sub := sub, type := tokenType, jti := jti, iat := now,
    iss := "your-auth", aud := "auth_api", exp := 0 }

/-- `make_access_token(sub, jti, exp, minutes=15, typ="access")`: when `exp` is None it
defaults to now + minutes.  Signs with ACCESS_SECRET using settings.JWT_ALG. -/
def makeAccessToken (s : Settings) (now : Int) (sub : String) (jti : String)
    (expOpt : Option Int) (minutes : Int) (typ : String) : Token :=
  let exp := match expOpt with
    | some e => e
    | none => now + minutes * 60
  { claims := { jwtCommonClaims now sub typ jti with exp := exp },
    key := s.ACCESS_SECRET, alg := s.JWT_ALG }

/-- `make_refresh_token(sub, jti, exp, days=1, typ="refresh")`: when `exp` is None it
defaults to now + (days or 1) days (Python `days or 1` maps 0 to 1).  Signs with
REFRESH_SECRET using settings.JWT_ALG. -/
def makeRefreshToken (s : Settings) (now : Int) (sub : String) (jti : String)
    (expOpt : Option Int) (days : Int) (typ : String) : Token :=
  let exp := match expOpt with
    | some e => e
    | none => now + (if days = 0 then 1 else days) * 86400
  { claims := { jwtCommonClaims now sub typ jti with exp := exp },
    key := s.REFRESH_SECRET, alg := s.JWT_ALG }

/-- `decode_token(token, expected_type)` (jwt_service.py lines 76-96): selects the
secret by `expected_type`, calls `jwt.decode(..., audience="your-api",
issuer="your-auth", ...)`; any InvalidTokenError becomes HTTP 401, and a successful
decode whose `type` claim differs from `expected_type` becomes HTTP 400. -/
def decodeToken (s : Settings) (tok : Token) (expectedType : String) (now : Int) :
    Except HttpError Claims :=
  let secret := if expectedType = "access" then s.ACCESS_SECRET else s.REFRESH_SECRET
  match jwtDecode tok secret "your-api" "your-auth" now with
  | none => .error ⟨401, "Invalid or expired token."⟩
  | some payload =>
    if payload.type ≠ expectedType then .error ⟨400, "Invalid token type."⟩
    else .ok payload

/-- Cache key space of TokenCache (token_cache.py `_key_*` helpers).  The source builds
the string keys `TOKEN_CACHE_PREFIX:access:jti`, `...:refresh:jti`, `...:revoked:jti`
and `...:user_sessions:user_id`; the four families never collide and each is injective
in its argument, so here they are an inductive key type (the configurable namespace
string is dropped as it is common to every key). -/
inductive RKey where
  | access (jti : String)
  | refresh (jti : String)
  | revoked (jti : String)
  | userSessions (userId : Int)
deriving DecidableEq, Repr

/-- State of the Redis backing store as used by TokenCache: a TTL-capable string
key-value map (every `SET` issued by TokenCache carries an `EX` argument, recorded
here as the absolute expiry instant) and the `user_sessions` sets, which are stored
without TTL. -/
structure RedisState where
  kv : RKey → Option (String × Int)
  sets : RKey → List String

/-- The empty Redis state. -/
def redisEmpty : RedisState := { kv := fun _ => none, sets := fun _ => [] }

/-- Redis `SET key value EX ex`: stores the value with absolute expiry `now + ex`. -/
def RedisState.rset (st : RedisState) (now : Int) (k : RKey) (v : String) (ex : Int) :
    RedisState :=
  { st with kv := fun k2 => if k2 = k then some (v, now + ex) else st.kv k2 }

/-- Redis `GET key`: an entry is visible only while `now` is before its expiry. -/
def RedisState.rget (st : RedisState) (now : Int) (k : RKey) : Option String :=
  match st.kv k with
  | none => none
  | some (v, e) => if now < e then some v else none

/-- Redis `DEL key`. -/
def RedisState.rdelete (st : RedisState) (k : RKey) : RedisState :=
  { st with kv := fun k2 => if k2 = k then none else st.kv k2 }

/-- Redis `EXISTS key` (expired keys count as absent). -/
def RedisState.rexists (st : RedisState) (now : Int) (k : RKey) : Bool :=
  (st.rget now k).isSome

/-- Redis `TTL key`: -2 when the key is absent or expired, else the remaining seconds. -/
def RedisState.rttl (st : RedisState) (now : Int) (k : RKey) : Int :=
  match st.kv k with
  | none => -2
  | some (_, e) => if now < e then e - now else -2

/-- Redis `SADD set member`. -/
def RedisState.rsadd (st : RedisState) (k : RKey) (m : String) : RedisState :=
  { st with sets := fun k2 =>
      if k2 = k then (if m ∈ st.sets k then st.sets k else st.sets k ++ [m])
      else st.sets k2 }

/-- Redis `SREM set member`. -/
def RedisState.rsrem (st : RedisState) (k : RKey) (m : String) : RedisState :=
  { st with sets := fun k2 =>
      if k2 = k then (st.sets k).filter (fun x => x ≠ m) else st.sets k2 }

/-- Redis `SMEMBERS set`. -/
def RedisState.rsmembers (st : RedisState) (k : RKey) : List String := st.sets k

/-- `TokenCache._ttl_from_exp(exp)` (token_cache.py lines 43-52): remaining seconds
until `exp`, clamped at 0. -/
def ttlFromExp (now : Int) (exp : Int) : Int := max (exp - now) 0

/-- `json.dumps({"sub": user_id})`, the payload TokenCache stores for issued tokens. -/
def subPayload (userId : Int) : String :=
  "\x7b\"sub\": " ++ toString userId ++ "\x7d"

/-- `TokenCache.register_refresh(user_id, jti, payload, exp)`: no-op if the remaining
TTL is non-positive, else SET refresh:jti with that TTL and SADD the jti to the user's
session set.  (The payload argument is the already-serialized JSON string.) -/
def registerRefresh (now : Int) (userId : Int) (jti : String) (payload : String)
    (exp : Int) (st : RedisState) : RedisState :=
  let ttl := ttlFromExp now exp
  if ttl ≤ 0 then st
  else (st.rset now (.refresh jti) payload ttl).rsadd (.userSessions userId) jti

/-- `TokenCache.ttl_of_refresh(jti)`: TTL of the refresh:jti key. -/
def ttlOfRefresh (now : Int) (jti : String) (st : RedisState) : Int :=
  st.rttl now (.refresh jti)

/-- `TokenCache.revoke_refresh(jti)` (token_cache.py lines 73-83): reads the remaining
TTL of refresh:jti; if it is non-positive returns False and changes nothing; else SETs
revoked:jti = "1" with the same TTL, DELetes refresh:jti and returns True. -/
def revokeRefresh (now : Int) (jti : String) (st : RedisState) : Bool × RedisState :=
  let ttl := ttlOfRefresh now jti st
  if ttl ≤ 0 then (false, st)
  else (true, ((st.rset now (.revoked jti) "1" ttl).rdelete (.refresh jti)))

/-- `TokenCache.revoke_all_user_refresh(user_id)` (token_cache.py lines 85-99):
iterates the user's session set, revokes each member (counting successes) and removes
each member from the set regardless of the revoke outcome. -/
def revokeAllUserRefresh (now : Int) (userId : Int) (st : RedisState) :
    Int × RedisState :=
  let jtiset := st.rsmembers (.userSessions userId)
  if jtiset = [] then (0, st)
  else jtiset.foldl (fun (acc : Int × RedisState) jti =>
    let st2 := revokeRefresh now jti acc.2
    (acc.1 + (if st2.1 then 1 else 0), st2.2.rsrem (.userSessions userId) jti)) (0, st)

/-- `TokenCache.store_access(jti, payload, exp)`: SET access:jti with the remaining TTL
when it is positive, else no-op. -/
def storeAccess (now : Int) (jti : String) (payload : String) (exp : Int)
    (st : RedisState) : RedisState :=
  let ttl := ttlFromExp now exp
  if ttl > 0 then st.rset now (.access jti) payload ttl else st

/-- `TokenCache.store_refresh(jti, payload, exp)`: SET refresh:jti with the remaining
TTL when it is positive, else no-op. -/
def storeRefresh (now : Int) (jti : String) (payload : String) (exp : Int)
    (st : RedisState) : RedisState :=
  let ttl := ttlFromExp now exp
  if ttl > 0 then st.rset now (.refresh jti) payload ttl else st

/-- `TokenCache.get_access(jti)`: `json.loads(raw) if raw else None`; the stored string
is returned as-is (deserialization is the identity in this model) and the empty string
is falsy. -/
def getAccess (now : Int) (jti : String) (st : RedisState) : Option String :=
  match st.rget now (.access jti) with
  | none => none
  | some raw => if raw = "" then none else some raw

/-- `TokenCache.get_refresh(jti)`: as `get_access`, on the refresh:jti key. -/
def getRefresh (now : Int) (jti : String) (st : RedisState) : Option String :=
  match st.rget now (.refresh jti) with
  | none => none
  | some raw => if raw = "" then none else some raw

/-- `TokenCache.revoke(jti, exp)` (token_cache.py lines 127-131): SET revoked:jti = "1"
with the remaining TTL to `exp` when positive, else no-op.  Does not delete the
refresh entry. -/
def revoke (now : Int) (jti : String) (exp : Int) (st : RedisState) : RedisState :=
  let ttl := ttlFromExp now exp
  if ttl > 0 then st.rset now (.revoked jti) "1" ttl else st

/-- `TokenCache.is_revoked(jti)`: EXISTS revoked:jti. -/
def isRevoked (now : Int) (jti : String) (st : RedisState) : Bool :=
  st.rexists now (.revoked jti)

/-- `TokenCache.delete_access(jti)`. -/
def deleteAccess (jti : String) (st : RedisState) : RedisState :=
  st.rdelete (.access jti)

/-- `TokenCache.delete_refresh(jti)`. -/
def deleteRefresh (jti : String) (st : RedisState) : RedisState :=
  st.rdelete (.refresh jti)

/-- Result dict of `issue_tokens_for_user`. -/
structure IssuedTokens where
  access_token : Option Token
  refresh_token : Option Token
  token_type : String
  expires_in : Option Int
deriving DecidableEq, Repr

/-- `issue_tokens_for_user(user_id, access, refresh)` (token_cache.py lines 149-181):
for the access token, mint with exp = now + 15 min and `store_access`; for the refresh
token, mint with exp = now + 1 day and `store_refresh`.  The fresh random UUID jtis are
passed in as `jtiA`, `jtiR`.  Note the refresh branch calls `store_refresh`, not
`register_refresh`: the jti is never added to the user_sessions set. -/
def issueTokensForUser (s : Settings) (now : Int) (userId : Int)
    (access : Bool) (refresh : Bool) (jtiA jtiR : String) (st : RedisState) :
    IssuedTokens × RedisState :=
  let expAccess := now + 15 * 60
  let expRefresh := now + 86400
  let step1 : Option Token × Option Int × RedisState :=
    if access then
      (some (makeAccessToken s now (toString userId) jtiA (some expAccess) 15 "access"),
       some (expAccess - now),
       storeAccess now jtiA (subPayload userId) expAccess st)
    else (none, none, st)
  let step2 : Option Token × RedisState :=
    if refresh then
      (some (makeRefreshToken s now (toString userId) jtiR (some expRefresh) 1 "refresh"),
       storeRefresh now jtiR (subPayload userId) expRefresh step1.2.2)
    else (none, step1.2.2)
  ({ access_token := step1.1, refresh_token := step2.1,
     token_type := "bearer", expires_in := step1.2.1 }, step2.2)

/-- Helper: decimal digits to a natural number; `none` when empty or a non-digit occurs. -/
def digitsToNat (cs : List Char) : Option Nat :=
  if cs ≠ [] ∧ cs.all Char.isDigit
  then some (cs.foldl (fun acc c => acc * 10 + (c.toNat - 48)) 0)
  else none

/-- Whitespace in the sense of Python `str.strip()`. -/
def isPySpace (c : Char) : Bool :=
  c = ' ' ∨ c = '\t' ∨ c = '\n' ∨ c = '\r' ∨ c = '\x0b' ∨ c = '\x0c'

/-- Model of Python `str.strip()`: drop whitespace from both ends. -/
def pyStrip (s : String) : String :=
  String.mk (((s.toList.dropWhile isPySpace).reverse.dropWhile isPySpace).reverse)

/-- Model of Python `int(s)` on strings: optional surrounding whitespace, optional sign,
then decimal digits (the underscore-separator extension of Python literals is not
modelled; the subjects handled by this code are `str(user_id)` round-trips). -/
def pyIntOfString (s : String) : Option Int :=
  match (pyStrip s).toList with
  | '+' :: rest => (digitsToNat rest).map Int.ofNat
  | '-' :: rest => (digitsToNat rest).map (fun n => -(Int.ofNat n))
  | cs => (digitsToNat cs).map Int.ofNat

/-- `check_authorization(user_id, current_user_id)` (user_auth/utils.py lines 33-41):
403 when the path user id differs from the authenticated user id, else passes. -/
def checkAuthorization (userId : Int) (currentUserId : Int) : Option HttpError :=
  if userId ≠ currentUserId
  then some ⟨403, "You can only access your own data."⟩
  else none

/-- Symbolic model of `pwd_context.hash` (bcrypt): an injective tagging of the
plaintext.  Adequate for the control flow verified here, which only compares
hash/verify pairs. -/
def getPasswordHash (password : String) : String := "bcrypt$" ++ password

/-- Symbolic model of `pwd_context.verify(plain, hashed)` matching `getPasswordHash`. -/
def verifyPassword (plain : String) (hashed : String) : Bool :=
  hashed = getPasswordHash plain

/-- A row of the users table (data_base/models.py), restricted to the fields the
change-password handler reads. -/
structure PgUser where
  id : Int
  email : String
  hashed_password : String
deriving DecidableEq, Repr

/-- Response schema TokenPair (user_auth/schemas.py) carrying the two signed tokens. -/
structure TokenPair where
  access : Token
  refresh : Token
deriving DecidableEq, Repr

/-- `api_refresh` (user_auth/routers.py lines 100-119): decode the presented token as a
refresh token (401/400 from `decode_token`), then 401 if its jti is revoked, then 401
if the refresh cache entry is absent; otherwise issue a brand-new access+refresh pair
for `int(sub)` and finally revoke the old jti with its original exp (the old cache
entry is not deleted).  `jtiA`, `jtiR` stand for the fresh UUIDs of the new pair.
An unparsable `sub` makes `int(sub)` raise, surfacing as a 500. -/
def apiRefresh (s : Settings) (now : Int) (jtiA jtiR : String) (tok : Token)
    (st : RedisState) : Except HttpError (TokenPair × RedisState) :=
  match decodeToken s tok "refresh" now with
  | .error e => .error e
  | .ok payload =>
    let jti := payload.jti
    let sub := payload.sub
    let exp := payload.exp
    if isRevoked now jti st then .error ⟨401, "Refresh token revoked"⟩
    else if getRefresh now jti st = none then
      .error ⟨401, "Refresh token invalid/expired"⟩
    else match pyIntOfString sub with
      | none => .error ⟨500, "Internal Server Error"⟩
      | some subId =>
        let issued := issueTokensForUser s now subId true true jtiA jtiR st
        let st2 := revoke now jti exp issued.2
        match issued.1.access_token, issued.1.refresh_token with
        | some a, some r => .ok (⟨a, r⟩, st2)
        | _, _ => .error ⟨500, "Internal Server Error"⟩

/-- The `/auth/{user_id}/refresh` route: the path declares `user_id` but the handler
signature of `api_refresh` does not bind it, so the handler receives and ignores it. -/
def apiRefreshEndpoint (pathUserId : Int) (s : Settings) (now : Int)
    (jtiA jtiR : String) (tok : Token) (st : RedisState) :
    Except HttpError (TokenPair × RedisState) :=
  let _ := pathUserId
  apiRefresh s now jtiA jtiR tok st

/-- `api_logout` (user_auth/routers.py lines 123-154): authorization check (403), decode
as refresh (the `except ValueError` around `decode_token` never fires because
`decode_token` raises HTTPException; its 401/400 propagate), a re-check of the type
claim (400), falsy checks on sub/jti/exp (400 "Malformed refresh token"), then 409 when
the jti is already revoked or the cache entry is absent, else revoke + delete and
return 204 (modelled as `.ok` with the new cache state). -/
def apiLogout (s : Settings) (now : Int) (pathUserId currentUserId : Int)
    (tok : Token) (st : RedisState) : Except HttpError RedisState :=
  match checkAuthorization pathUserId currentUserId with
  | some e => .error e
  | none =>
    match decodeToken s tok "refresh" now with
    | .error e => .error e
    | .ok data =>
      if data.type ≠ "refresh" then .error ⟨400, "Invalid token type"⟩
      else if data.sub = "" ∨ data.jti = "" ∨ data.exp = 0 then
        .error ⟨400, "Malformed refresh token"⟩
      else if isRevoked now data.jti st then
        .error ⟨409, "Session already closed or not found"⟩
      else if getRefresh now data.jti st = none then
        .error ⟨409, "Session already closed or not found"⟩
      else .ok (deleteRefresh data.jti (revoke now data.jti data.exp st))

/-- `api_change_password` (user_auth/routers.py lines 158-188): authorization check
(403), fetch the user row (404), verify the current password (401), reject a no-op
change (400), persist the new hash and on success revoke all the user's refresh
sessions; returns 204 (modelled as `.ok` with the updated table and cache state).
The current_user dependency is passed in resolved, as `currentUserId`. -/
def apiChangePassword (s : Settings) (now : Int) (pathUserId currentUserId : Int)
    (currentPassword newPassword : String) (db : List PgUser) (st : RedisState) :
    Except HttpError (List PgUser × RedisState) :=
  let _ := s
  match checkAuthorization pathUserId currentUserId with
  | some e => .error e
  | none =>
    match db.find? (fun u => u.id = currentUserId) with
    | none => .error ⟨404, "User not found."⟩
    | some user =>
      if ¬ verifyPassword currentPassword user.hashed_password then
        .error ⟨401, "Current password is incorrect."⟩
      else if currentPassword = newPassword then
        .error ⟨400, "New password must differ from current password."⟩
      else
        let db2 := db.map (fun u =>
          if u.id = currentUserId
          then { u with hashed_password := getPasswordHash newPassword } else u)
        let st2 := (revokeAllUserRefresh now currentUserId st).2
        .ok (db2, st2)

/-- Python datetime value as produced by `datetime.fromisoformat`: a calendar timestamp
with an optional UTC offset; `tzOffsetMinutes = none` is a naive (timezone-unaware)
datetime. -/
structure PyDatetime where
  year : Nat
  month : Nat
  day : Nat
  hour : Nat
  minute : Nat
  second : Nat
  tzOffsetMinutes : Option Int
deriving DecidableEq, Repr

/-- Read two decimal digits. -/
def read2 : List Char → Option (Nat × List Char)
  | a :: b :: rest =>
    if a.isDigit ∧ b.isDigit
    then some ((a.toNat - 48) * 10 + (b.toNat - 48), rest)
    else none
  | _ => none

/-- Read four decimal digits. -/
def read4 : List Char → Option (Nat × List Char)
  | a :: b :: c :: d :: rest =>
    if a.isDigit ∧ b.isDigit ∧ c.isDigit ∧ d.isDigit
    then some ((((a.toNat - 48) * 10 + (b.toNat - 48)) * 10 + (c.toNat - 48)) * 10
               + (d.toNat - 48), rest)
    else none
  | _ => none

/-- Parse the optional UTC-offset suffix of an ISO-8601 time: empty (naive), `Z`, or
`+HH:MM` / `-HH:MM`. -/
def readTzOffset : List Char → Option (Option Int)
  | [] => some none
  | ['Z'] => some (some 0)
  | c :: rest =>
    if c = '+' ∨ c = '-' then
      match read2 rest with
      | some (hh, ':' :: rest2) =>
        match read2 rest2 with
        | some (mm, []) =>
          if hh ≤ 23 ∧ mm ≤ 59 then
            let total : Int := Int.ofNat (hh * 60 + mm)
            some (some (if c = '-' then -total else total))
          else none
        | _ => none
      | _ => none
    else none

/-- Skip a fractional-seconds suffix `.d+` if present (the fraction value itself is
dropped: sub-second precision plays no role in this development). -/
def dropFraction : List Char → Option (List Char)
  | '.' :: rest =>
    let digits := rest.takeWhile Char.isDigit
    if digits = [] then none else some (rest.dropWhile Char.isDigit)
  | cs => some cs

/-- Model of Python `datetime.fromisoformat` restricted to the grammar
`YYYY-MM-DD[<sep>HH:MM[:SS[.ffffff]][offset]]` with any single separator character,
as accepted by CPython 3.11+.  Simplifications: the day-of-month bound is 1..31 for
every month, and ISO week/ordinal-date forms are not modelled; the inputs exercised by
the claims fall inside the common fragment.  Crucially, a missing offset yields a
naive datetime rather than an error, exactly as in CPython. -/
def pyFromIsoformat (s : String) : Option PyDatetime :=
  match read4 s.toList with
  | some (y, '-' :: rest1) =>
    match read2 rest1 with
    | some (mo, '-' :: rest2) =>
      match read2 rest2 with
      | some (d, rest3) =>
        if 1 ≤ mo ∧ mo ≤ 12 ∧ 1 ≤ d ∧ d ≤ 31 then
          match rest3 with
          | [] => some ⟨y, mo, d, 0, 0, 0, none⟩
          | _sep :: rest4 =>
            match read2 rest4 with
            | some (hh, ':' :: rest5) =>
              match read2 rest5 with
              | some (mi, rest6) =>
                let secPart : Option (Nat × List Char) :=
                  match rest6 with
                  | ':' :: rest7 =>
                    match read2 rest7 with
                    | some (ss, rest8) =>
                      match dropFraction rest8 with
                      | some rest9 => some (ss, rest9)
                      | none => none
                    | none => none
                  | _ => some (0, rest6)
                match secPart with
                | none => none
                | some (ss, rest10) =>
                  if hh ≤ 23 ∧ mi ≤ 59 ∧ ss ≤ 59 then
                    match readTzOffset rest10 with
                    | some off => some ⟨y, mo, d, hh, mi, ss, off⟩
                    | none => none
                  else none
              | _ => none
            | _ => none
        else none
      | _ => none
    | _ => none
  | _ => none

/-- JSON value as produced by Python `json.loads` (numbers restricted to integers:
no claim depends on float payloads). -/
inductive PyJson where
  | null
  | bool (b : Bool)
  | num (n : Int)
  | str (s : String)
  | arr (xs : List PyJson)
  | obj (fields : List (String × PyJson))

/-- The literal characters for braces, kept out of string literals. -/
def lbraceChar : Char := Char.ofNat 123

/-- Closing-brace character. -/
def rbraceChar : Char := Char.ofNat 125

/-- JSON whitespace skipper. -/
def skipWs (cs : List Char) : List Char :=
  cs.dropWhile (fun c => c = ' ' ∨ c = '\t' ∨ c = '\n' ∨ c = '\r')

/-- Read a JSON string body up to the closing quote.  Escape sequences are not
modelled (inputs containing a backslash are rejected); no claim exercises them. -/
def readJsonString : List Char → Option (String × List Char)
  | [] => none
  | c :: rest =>
    if c = '"' then some ("", rest)
    else if c = '\\' then none
    else match readJsonString rest with
      | some (s, rest2) => some (String.mk (c :: s.toList), rest2)
      | none => none

mutual

/-- Fuel-driven recursive-descent parser for a JSON value. -/
def parseJsonVal : Nat → List Char → Option (PyJson × List Char)
  | 0, _ => none
  | fuel + 1, cs =>
    match skipWs cs with
    | 'n' :: 'u' :: 'l' :: 'l' :: rest => some (.null, rest)
    | 't' :: 'r' :: 'u' :: 'e' :: rest => some (.bool true, rest)
    | 'f' :: 'a' :: 'l' :: 's' :: 'e' :: rest => some (.bool false, rest)
    | '"' :: rest =>
      match readJsonString rest with
      | some (s, rest2) => some (.str s, rest2)
      | none => none
    | '[' :: rest =>
      match skipWs rest with
      | ']' :: rest2 => some (.arr [], rest2)
      | rest2 =>
        match parseJsonItems fuel rest2 with
        | some (xs, rest3) => some (.arr xs, rest3)
        | none => none
    | '-' :: rest =>
      match digitsToNat (rest.takeWhile Char.isDigit) with
      | some n => some (.num (-(Int.ofNat n)), rest.dropWhile Char.isDigit)
      | none => none
    | c :: rest =>
      if c = lbraceChar then
        match skipWs rest with
        | c2 :: rest2 =>
          if c2 = rbraceChar then some (.obj [], rest2)
          else match parseJsonFields fuel (c2 :: rest2) with
            | some (fs, rest3) => some (.obj fs, rest3)
            | none => none
        | [] => none
      else if c.isDigit then
        match digitsToNat ((c :: rest).takeWhile Char.isDigit) with
        | some n => some (.num (Int.ofNat n), (c :: rest).dropWhile Char.isDigit)
        | none => none
      else none
    | [] => none

/-- Comma-separated JSON array items, up to and including the closing bracket. -/
def parseJsonItems : Nat → List Char → Option (List PyJson × List Char)
  | 0, _ => none
  | fuel + 1, cs =>
    match parseJsonVal fuel cs with
    | some (v, rest) =>
      match skipWs rest with
      | ',' :: rest2 =>
        match parseJsonItems fuel rest2 with
        | some (xs, rest3) => some (v :: xs, rest3)
        | none => none
      | ']' :: rest2 => some ([v], rest2)
      | _ => none
    | none => none

/-- Comma-separated JSON object members, up to and including the closing brace. -/
def parseJsonFields : Nat → List Char → Option (List (String × PyJson) × List Char)
  | 0, _ => none
  | fuel + 1, cs =>
    match skipWs cs with
    | '"' :: rest =>
      match readJsonString rest with
      | some (k, rest2) =>
        match skipWs rest2 with
        | ':' :: rest3 =>
          match parseJsonVal fuel rest3 with
          | some (v, rest4) =>
            match skipWs rest4 with
            | ',' :: rest5 =>
              match parseJsonFields fuel rest5 with
              | some (fs, rest6) => some ((k, v) :: fs, rest6)
              | none => none
            | c :: rest5 =>
              if c = rbraceChar then some ([(k, v)], rest5) else none
            | [] => none
          | none => none
        | _ => none
      | none => none
    | _ => none

end

/-- Model of Python `json.loads`: parse one value and require only whitespace after it. -/
def pyJsonLoads (s : String) : Option PyJson :=
  match parseJsonVal (s.length + 1) s.toList with
  | some (v, rest) => if skipWs rest = [] then some v else none
  | none => none

/-- A validated CSV row (`EventRow` dataclass, cli_utils.py lines 25-31). -/
structure EventRow where
  event_id : String
  occurred_at : PyDatetime
  user_id : Int
  event_type : String
  properties : PyJson

/-- A raw CSV row as handed to `parse_row`: an association list from column name to an
optional string cell (csv.DictReader yields None for missing trailing cells). -/
def Row : Type := List (String × Option String)

/-- Dictionary lookup on a raw row: outer `none` = column absent. -/
def rowLookup (row : Row) (k : String) : Option (Option String) :=
  (row.find? (fun p => p.1 = k)).map (fun p => p.2)

/-- The five required CSV columns (cli_utils.py line 36). -/
def requiredFields : List String :=
  ["event_id", "occurred_at", "user_id", "event_type", "properties_json"]

/-- `parse_row(row, line_num)` (cli_utils.py lines 35-85): row-level validation.
Returns `none` (row skipped) when a required column is missing or None, the stripped
event_id or event_type is empty, `datetime.fromisoformat` rejects the stripped
occurred_at, `int` rejects the user_id, or `json.loads` rejects the properties_json;
an empty properties_json cell yields an empty dict and a parsed non-dict JSON value is
wrapped as an object under the key "value".  The `lineNum` argument is used by the
source only for warning messages and does not influence the result. -/
def parseRow (row : Row) (lineNum : Nat) : Option EventRow :=
  let _ := lineNum
  let missing := requiredFields.filter (fun k =>
    match rowLookup row k with
    | some (some _) => false
    | _ => true)
  if missing ≠ [] then none
  else
    match rowLookup row "event_id", rowLookup row "occurred_at",
      rowLookup row "user_id", rowLookup row "event_type",
      rowLookup row "properties_json" with
    | some (some rawId), some (some rawOcc), some (some rawUid),
      some (some rawType), some (some rawProps) =>
      let eventId := pyStrip rawId
      if eventId = "" then none
      else
        match pyFromIsoformat (pyStrip rawOcc) with
        | none => none
        | some occurredAt =>
          match pyIntOfString rawUid with
          | none => none
          | some userId =>
            let eventType := pyStrip rawType
            if eventType = "" then none
            else
              let propsOpt : Option PyJson :=
                if rawProps = "" then some (.obj []) else pyJsonLoads rawProps
              match propsOpt with
              | none => none
              | some p =>
                let props := match p with
                  | .obj fs => PyJson.obj fs
                  | v => .obj [("value", v)]
                some ⟨eventId, occurredAt, userId, eventType, props⟩
    | _, _, _, _, _ => none

/-- PostgreSQL `INSERT ... ON CONFLICT (event_id) DO NOTHING RETURNING event_id` over a
table modelled as a list of rows: the payload rows are processed in order, a row whose
key already exists in the table (including rows inserted earlier in the same statement)
is silently skipped, and the keys actually inserted are returned. -/
def pgInsertDoNothingBy {α : Type} (key : α → String) :
    List α → List α → List α × List String
  | db, [] => (db, [])
  | db, ev :: rest =>
    if key ev ∈ db.map key then pgInsertDoNothingBy key db rest
    else
      let step := pgInsertDoNothingBy key (db ++ [ev]) rest
      (step.1, key ev :: step.2)

/-- Event payload schema of the ingestion endpoint (endpoint_events/schemas.py
EventBase); the UUID event_id is modelled as its string form and JSON property values
as strings. -/
structure EventBase where
  event_id : String
  occurred_at : Int
  user_id : Int
  event_type : String
  properties : List (String × String)
deriving DecidableEq, Repr

/-- Response schema EventsOut.  The source builds Python sets of ids and returns them
as lists in unspecified order; the sets themselves are modelled. -/
structure EventsOut where
  inserted : Finset String
  duplicates : Finset String
deriving DecidableEq

/-- The set of event ids stored in a table. -/
def idsOf (db : List EventBase) : Finset String := (db.map EventBase.event_id).toFinset

/-- `add_unique_events(events, db)` (endpoint_events/routers.py lines 35-67): an empty
batch short-circuits to an empty 201 response with no database access; otherwise a
single conflict-skipping insert is executed and the response reports the ids actually
inserted and `duplicates = input_ids - inserted_ids`. -/
def addUniqueEvents (events : List EventBase) (db : List EventBase) :
    EventsOut × List EventBase :=
  if events = [] then (⟨∅, ∅⟩, db)
  else
    let inputIds : Finset String := (events.map EventBase.event_id).toFinset
    let step := pgInsertDoNothingBy EventBase.event_id db events
    let insertedIds : Finset String := step.2.toFinset
    (⟨insertedIds, inputIds \ insertedIds⟩, step.1)

/-- The running counters of `import_csv` (cli_utils.py lines 123-127). -/
structure ImportCounts where
  totalRead : Nat
  totalParsed : Nat
  totalInserted : Nat
  duplicates : Nat
deriving DecidableEq, Repr

/-- `insert_batch(engine, table, batch)` (cli_utils.py lines 89-114): empty batch
inserts nothing; otherwise one conflict-skipping insert, returning the count of rows
actually inserted. -/
def insertBatch (db : List EventRow) (batch : List EventRow) : List EventRow × Nat :=
  if batch.isEmpty then (db, 0)
  else
    let step := pgInsertDoNothingBy EventRow.event_id db batch
    (step.1, step.2.length)

/-- The row loop of `import_csv` (cli_utils.py lines 149-175): each CSV row is counted
as read; a row rejected by `parse_row` is skipped and the loop continues; a validated
row joins the current batch, which is flushed through `insert_batch` whenever it
reaches `batchSize`, adding the non-inserted remainder to the duplicate counter; the
final partial batch is flushed after the loop. -/
def importRows (batchSize : Nat) (lineNum : Nat) (counts : ImportCounts)
    (batch : List EventRow) (db : List EventRow) :
    List Row → ImportCounts × List EventRow
  | [] =>
    if batch.isEmpty then (counts, db)
    else
      let flush := insertBatch db batch
      ({ counts with totalInserted := counts.totalInserted + flush.2,
                     duplicates := counts.duplicates + (batch.length - flush.2) },
       flush.1)
  | row :: rest =>
    let counts1 := { counts with totalRead := counts.totalRead + 1 }
    match parseRow row lineNum with
    | none => importRows batchSize (lineNum + 1) counts1 batch db rest
    | some er =>
      let counts2 := { counts1 with totalParsed := counts1.totalParsed + 1 }
      let batch2 := batch ++ [er]
      if batch2.length ≥ batchSize then
        let flush := insertBatch db batch2
        importRows batchSize (lineNum + 1)
          { counts2 with totalInserted := counts2.totalInserted + flush.2,
                         duplicates := counts2.duplicates + (batch2.length - flush.2) }
          [] flush.1 rest
      else importRows batchSize (lineNum + 1) counts2 batch2 db rest

/-- `import_csv` row processing, entered after header validation with line numbers
starting at 2 and empty counters (the header I/O and logging are outside the model). -/
def importCsvModel (batchSize : Nat) (db : List EventRow) (rows : List Row) :
    ImportCounts × List EventRow :=
  importRows batchSize 2 ⟨0, 0, 0, 0⟩ [] db rows

/-- A concrete settings value matching the src/config.py defaults. -/
def demoSettings : Settings := ⟨"access-secret", "refresh-secret", "HS256"⟩

/-- The secret `decode_token` selects for a given expected type. -/
def selectedSecret (s : Settings) (expectedType : String) : String :=
  if expectedType = "access" then s.ACCESS_SECRET else s.REFRESH_SECRET

/-- Unfolding of `decodeToken` through the selected secret. -/
theorem decodeToken_eq (s : Settings) (tok : Token) (et : String) (now : Int) :
    decodeToken s tok et now =
      match jwtDecode tok (selectedSecret s et) "your-api" "your-auth" now with
      | none => .error ⟨401, "Invalid or expired token."⟩
      | some payload =>
        if payload.type ≠ et then .error ⟨400, "Invalid token type."⟩
        else .ok payload := rfl

/-- `jwtDecode` yields either nothing or exactly the token's claims. -/
theorem jwtDecode_cases (tok : Token) (key aud iss : String) (now : Int) :
    jwtDecode tok key aud iss now = none ∨
      jwtDecode tok key aud iss now = some tok.claims := by
  unfold jwtDecode
  split
  · right; rfl
  · left; rfl

/-- C1: Round-trip through the token codec.  The claim states that decoding a freshly
issued token with the matching expected type succeeds; in the source it never does:
`_jwt_common_claims` mints `aud = "auth_api"` while `decode_token` validates
`audience = "your-api"`, so the audience check raises InvalidTokenError and every
round-trip ends in HTTP 401, for every subject, jti, ttl and clock value, on both the
access and the refresh path.  (The repository's own jwt tests monkeypatch
`_jwt_common_claims` to `aud = "your-api"` to make their round-trip test pass.) -/
theorem token_roundtrip_always_401 :
    ∀ (s : Settings) (now now2 : Int) (sub jti : String) (minutes days : Int),
      decodeToken s (makeAccessToken s now sub jti none minutes "access") "access" now2
          = .error ⟨401, "Invalid or expired token."⟩ ∧
      decodeToken s (makeRefreshToken s now sub jti none days "refresh") "refresh" now2
          = .error ⟨401, "Invalid or expired token."⟩ := by
  intro s now now2 sub jti minutes days
  constructor <;>
    simp [decodeToken, jwtDecode, makeAccessToken, makeRefreshToken, jwtCommonClaims]

/-- C6 counterexample: a token signed with the very secret that `expected_type`
selects and carrying a mismatching `type` claim is NOT answered with the 400
WrongTokenType error when another decode check fails: with the audience the system
itself mints ("auth_api"), decode_token returns 401 InvalidToken although the
signature verifies and the type differs.  This falsifies the claim as stated. -/
theorem decode_token_type_confusion_counterexample :
    (Token.mk ⟨"1", "refresh", "j", 0, "your-auth", "auth_api", 100⟩
        "access-secret" "HS256").key = selectedSecret demoSettings "access" ∧
    (Token.mk ⟨"1", "refresh", "j", 0, "your-auth", "auth_api", 100⟩
        "access-secret" "HS256").alg = "HS256" ∧
    (Token.mk ⟨"1", "refresh", "j", 0, "your-auth", "auth_api", 100⟩
        "access-secret" "HS256").claims.type ≠ "access" ∧
    decodeToken demoSettings
        (Token.mk ⟨"1", "refresh", "j", 0, "your-auth", "auth_api", 100⟩
          "access-secret" "HS256") "access" 0
        = .error ⟨401, "Invalid or expired token."⟩ :=
  ⟨rfl, rfl, by decide, rfl⟩

/-- C6 (amended): error classes of `decode_token` are exact and never conflated — the
400 WrongTokenType outcome occurs exactly when the full `jwt.decode` (signature,
expiry, audience, issuer) succeeds and the embedded type differs from the expected
one; the 401 InvalidToken outcome occurs exactly when `jwt.decode` fails; success
occurs exactly when decode succeeds and the type matches. -/
theorem decode_token_error_classes (s : Settings) (tok : Token) (et : String)
    (now : Int) :
    (decodeToken s tok et now = .error ⟨400, "Invalid token type."⟩ ↔
      jwtDecode tok (selectedSecret s et) "your-api" "your-auth" now = some tok.claims
        ∧ tok.claims.type ≠ et) ∧
    (decodeToken s tok et now = .error ⟨401, "Invalid or expired token."⟩ ↔
      jwtDecode tok (selectedSecret s et) "your-api" "your-auth" now = none) ∧
    (decodeToken s tok et now = .ok tok.claims ↔
      jwtDecode tok (selectedSecret s et) "your-api" "your-auth" now = some tok.claims
        ∧ tok.claims.type = et) := by
  rcases jwtDecode_cases tok (selectedSecret s et) "your-api" "your-auth" now with
    h | h <;> rw [decodeToken_eq, h]
  · simp [h]
  · by_cases ht : tok.claims.type = et <;> simp [h, ht]

/-- C10: the ingestion endpoint accepts the empty event list: it returns the 201
response `{inserted: [], duplicates: []}` and performs no database write. -/
theorem ingest_empty_batch_ok (db : List EventBase) :
    addUniqueEvents [] db = (⟨∅, ∅⟩, db) := rfl

/-- C4: contract of `revoke_refresh`: when the remaining TTL of the refresh entry is
non-positive (absent or expired, TTL = -2 in the Redis model) the call returns false
and the state is unchanged; otherwise it returns true, writes the revoked:jti marker
with exactly the remaining TTL the refresh entry had (absolute expiry `now + ttl`),
deletes refresh:jti, and touches nothing else. -/
theorem revoke_refresh_contract (now : Int) (jti : String) (st : RedisState) :
    revokeRefresh now jti st =
      if ttlOfRefresh now jti st ≤ 0 then (false, st)
      else (true,
        { kv := fun k =>
            if k = RKey.revoked jti then some ("1", now + ttlOfRefresh now jti st)
            else if k = RKey.refresh jti then none
            else st.kv k,
          sets := st.sets }) := by
  simp only [revokeRefresh]
  by_cases h : ttlOfRefresh now jti st ≤ 0
  · simp [h]
  · simp only [if_neg h]
    refine congrArg (Prod.mk true) ?_
    unfold RedisState.rset RedisState.rdelete
    cases st with
    | mk kv sets =>
      simp only [RedisState.mk.injEq]
      refine ⟨?_, trivial⟩
      funext k
      by_cases h1 : k = RKey.refresh jti
      · subst h1; simp
      · by_cases h2 : k = RKey.revoked jti
        · subst h2; simp [h1]
        · simp [h1, h2]

/-- Users-table row for the change-password scenario: user 1 with password "old". -/
def demoDb : List PgUser := [⟨1, "user@example.com", getPasswordHash "old"⟩]

/-- Cache state after user 1 logs in at time 0: `issue_tokens_for_user` mints the
access/refresh pair with fresh jtis "a1"/"r1" and stores both entries. -/
def loginState : RedisState :=
  (issueTokensForUser demoSettings 0 1 true true "a1" "r1" redisEmpty).2

/-- C2: change-password is claimed to revoke every refresh session of the user.  In
the source it revokes none of them: `issue_tokens_for_user` stores the refresh token
with `store_refresh` and never calls `register_refresh`, so no jti is ever added to
`user_sessions:{user}`; `revoke_all_user_refresh` then iterates an empty set and
returns 0.  Concretely: user 1 logs in at t=0 (refresh jti "r1"), the change-password
call succeeds (204) and afterwards the old refresh entry is still cached and its jti
is not revoked. -/
theorem change_password_leaves_sessions_active :
    apiChangePassword demoSettings 0 1 1 "old" "new" demoDb loginState
        = .ok ([⟨1, "user@example.com", getPasswordHash "new"⟩],
               (revokeAllUserRefresh 0 1 loginState).2) ∧
    (revokeAllUserRefresh 0 1 loginState).1 = 0 ∧
    getRefresh 0 "r1" (revokeAllUserRefresh 0 1 loginState).2 = some (subPayload 1) ∧
    isRevoked 0 "r1" (revokeAllUserRefresh 0 1 loginState).2 = false :=
  ⟨rfl, rfl, rfl, rfl⟩

/-- Key bookkeeping of the conflict-skipping insert: the keys of the resulting table
are the old keys followed by the returned inserted keys; every returned key is new
relative to the starting table; and every payload row's key is present afterwards. -/
theorem pgInsert_keys {α : Type} (key : α → String) :
    ∀ (payload db : List α),
      (pgInsertDoNothingBy key db payload).1.map key
          = db.map key ++ (pgInsertDoNothingBy key db payload).2
      ∧ (∀ k ∈ (pgInsertDoNothingBy key db payload).2, k ∉ db.map key)
      ∧ (∀ e ∈ payload, key e ∈ (pgInsertDoNothingBy key db payload).1.map key) := by
  intro payload
  induction payload with
  | nil => intro db; simp [pgInsertDoNothingBy]
  | cons ev rest ih =>
    intro db
    by_cases h : key ev ∈ db.map key
    · simp only [pgInsertDoNothingBy, if_pos h]
      refine ⟨(ih db).1, (ih db).2.1, ?_⟩
      intro e he
      rcases List.mem_cons.mp he with rfl | he2
      · rw [(ih db).1]; exact List.mem_append_left _ h
      · exact (ih db).2.2 e he2
    · simp only [pgInsertDoNothingBy, if_neg h]
      have ih2 := ih (db ++ [ev])
      refine ⟨?_, ?_, ?_⟩
      · rw [ih2.1, List.map_append]
        simp
      · intro k hk
        rcases List.mem_cons.mp hk with rfl | hk2
        · exact h
        · intro hkdb
          exact ih2.2.1 k hk2 (by rw [List.map_append]; exact List.mem_append_left _ hkdb)
      · intro e he
        rcases List.mem_cons.mp he with rfl | he2
        · rw [ih2.1, List.map_append]
          exact List.mem_append_left _ (List.mem_append_right _ (by simp))
        · exact ih2.2.2 e he2

/-- When every payload key already exists in the table, the conflict-skipping insert
inserts nothing and returns the table unchanged. -/
theorem pgInsert_all_dup {α : Type} (key : α → String) :
    ∀ (payload db : List α), (∀ e ∈ payload, key e ∈ db.map key) →
      pgInsertDoNothingBy key db payload = (db, []) := by
  intro payload
  induction payload with
  | nil => intro db _; rfl
  | cons ev rest ih =>
    intro db h
    have hev : key ev ∈ db.map key := h ev (List.mem_cons_self _ _)
    simp only [pgInsertDoNothingBy, if_pos hev]
    exact ih db (fun e he => h e (List.mem_cons_of_mem _ he))

/-- C7: ingestion deduplication and idempotence.  The response's `inserted` set is
exactly the set of ids newly persisted (table ids after minus table ids before), the
`duplicates` set is the requested ids minus the inserted ids, and resubmitting the
same batch yields an empty `inserted` set, all requested ids as duplicates, and an
unchanged table. -/
theorem ingestion_dedup_idempotent (events : List EventBase) (db : List EventBase) :
    ((addUniqueEvents events db).1.inserted
        = idsOf (addUniqueEvents events db).2 \ idsOf db)
    ∧ ((addUniqueEvents events db).1.duplicates
        = (events.map EventBase.event_id).toFinset
            \ (addUniqueEvents events db).1.inserted)
    ∧ ((addUniqueEvents events (addUniqueEvents events db).2).1.inserted = ∅)
    ∧ ((addUniqueEvents events (addUniqueEvents events db).2).1.duplicates
        = (events.map EventBase.event_id).toFinset)
    ∧ ((addUniqueEvents events (addUniqueEvents events db).2).2
        = (addUniqueEvents events db).2) := by
  by_cases hev : events = []
  · subst hev
    simp [addUniqueEvents, idsOf]
  · have hfacts := pgInsert_keys EventBase.event_id events db
    set step := pgInsertDoNothingBy EventBase.event_id db events with hstep
    have hr : addUniqueEvents events db =
        (⟨step.2.toFinset, (events.map EventBase.event_id).toFinset \ step.2.toFinset⟩,
         step.1) := by
      simp only [addUniqueEvents, if_neg hev]
    have hids1 : idsOf step.1 = idsOf db ∪ step.2.toFinset := by
      unfold idsOf
      rw [hfacts.1, List.toFinset_append]
    have hnew : ∀ k ∈ step.2.toFinset, k ∉ idsOf db := by
      intro k hk
      rw [List.mem_toFinset] at hk
      rw [idsOf, List.mem_toFinset]
      exact hfacts.2.1 k hk
    have hall : ∀ e ∈ events, EventBase.event_id e ∈ step.1.map EventBase.event_id :=
      hfacts.2.2
    have hdup := pgInsert_all_dup EventBase.event_id events step.1 hall
    refine ⟨?_, ?_, ?_, ?_, ?_⟩
    · rw [hr]
      show step.2.toFinset = idsOf step.1 \ idsOf db
      rw [hids1]
      ext x
      simp only [Finset.mem_sdiff, Finset.mem_union]
      constructor
      · intro hx
        exact ⟨Or.inr hx, fun hxdb => hnew x hx hxdb⟩
      · rintro ⟨hx | hx, hxdb⟩
        · exact absurd hx hxdb
        · exact hx
    · rw [hr]
    · rw [hr]
      show (addUniqueEvents events step.1).1.inserted = ∅
      simp only [addUniqueEvents, if_neg hev, hdup]
      rfl
    · rw [hr]
      show (addUniqueEvents events step.1).1.duplicates
          = (events.map EventBase.event_id).toFinset
      simp only [addUniqueEvents, if_neg hev, hdup]
      simp
    · rw [hr]
      show (addUniqueEvents events step.1).2 = step.1
      simp only [addUniqueEvents, if_neg hev, hdup]


/-- Success characterization of `decode_token`: it returns the token's claims exactly
when the algorithm, key, audience, issuer and expiry checks pass and the type claim
matches the expected type. -/
theorem decodeToken_ok_iff (s : Settings) (tok : Token) (et : String) (now : Int)
    (c : Claims) :
    decodeToken s tok et now = .ok c ↔
      (c = tok.claims
        ∧ (tok.alg = "HS256" ∧ tok.key = selectedSecret s et
            ∧ tok.claims.aud = "your-api" ∧ tok.claims.iss = "your-auth"
            ∧ now < tok.claims.exp)
        ∧ tok.claims.type = et) := by
  rw [decodeToken_eq]
  unfold jwtDecode
  by_cases hc : (tok.alg = "HS256" ∧ tok.key = selectedSecret s et
      ∧ tok.claims.aud = "your-api" ∧ tok.claims.iss = "your-auth"
      ∧ now < tok.claims.exp)
  · rw [if_pos hc]
    by_cases ht : tok.claims.type = et
    · simp [ht, hc, eq_comm]
    · simp [ht, hc]
  · rw [if_neg hc]
    simp [hc]

/-- Failure characterization of `jwt.decode` in the model. -/
theorem jwtDecode_none_iff (tok : Token) (key aud iss : String) (now : Int) :
    jwtDecode tok key aud iss now = none ↔
      ¬(tok.alg = "HS256" ∧ tok.key = key ∧ tok.claims.aud = aud
          ∧ tok.claims.iss = iss ∧ now < tok.claims.exp) := by
  unfold jwtDecode
  split <;> simp_all

/-- A failed `jwt.decode` surfaces as the 401 InvalidToken error. -/
theorem decodeToken_error_of_none {s : Settings} {tok : Token} {et : String}
    {now : Int} (h : jwtDecode tok (selectedSecret s et) "your-api" "your-auth" now
      = none) :
    decodeToken s tok et now = .error ⟨401, "Invalid or expired token."⟩ := by
  rw [decodeToken_eq, h]

/-- Reading back the key just set. -/
theorem rget_rset_self (st : RedisState) (now t : Int) (k : RKey) (v : String)
    (ex : Int) :
    (st.rset now k v ex).rget t k = if t < now + ex then some v else none := by
  unfold RedisState.rset RedisState.rget
  simp

/-- Reading another key after a set. -/
theorem rget_rset_other (st : RedisState) (now t : Int) (k k2 : RKey) (v : String)
    (ex : Int) (h : k2 ≠ k) :
    (st.rset now k v ex).rget t k2 = st.rget t k2 := by
  unfold RedisState.rset RedisState.rget
  simp [h]

/-- Reading back a deleted key. -/
theorem rget_rdelete_self (st : RedisState) (t : Int) (k : RKey) :
    (st.rdelete k).rget t k = none := by
  unfold RedisState.rdelete RedisState.rget
  simp

/-- Reading another key after a delete. -/
theorem rget_rdelete_other (st : RedisState) (t : Int) (k k2 : RKey) (h : k2 ≠ k) :
    (st.rdelete k).rget t k2 = st.rget t k2 := by
  unfold RedisState.rdelete RedisState.rget
  simp [h]

/-- The revoked marker written by `revoke(jti, exp)` is visible exactly until `exp`,
provided the token had remaining lifetime when revoked. -/
theorem isRevoked_after_revoke (st : RedisState) (now t : Int) (jti : String)
    (exp : Int) (hlife : now < exp) :
    isRevoked t jti (revoke now jti exp st) = (decide (t < exp)) := by
  unfold revoke ttlFromExp
  have hmax : max (exp - now) 0 = exp - now := by omega
  rw [hmax, if_pos (by omega)]
  unfold isRevoked RedisState.rexists
  rw [rget_rset_self]
  have harith : now + (exp - now) = exp := by omega
  rw [harith]
  by_cases ht : t < exp <;> simp [ht]

/-- When the presented token decodes and its jti carries a revoked marker, the refresh
handler answers 401 "Refresh token revoked" — regardless of whether the refresh cache
entry is still present, because the revocation check precedes the presence check. -/
theorem apiRefresh_revoked (s : Settings) (t : Int) (jA jR : String) (tok : Token)
    (st : RedisState) (hdec : decodeToken s tok "refresh" t = .ok tok.claims)
    (hrev : isRevoked t tok.claims.jti st = true) :
    apiRefresh s t jA jR tok st = .error ⟨401, "Refresh token revoked"⟩ := by
  unfold apiRefresh
  rw [hdec]
  simp [hrev]

/-- What a successful refresh call forces: the token decoded (as its own claims), its
jti was neither revoked nor absent in the cache, and the returned state is the
intermediate post-issuance state with the old jti revoked at its original expiry. -/
theorem apiRefresh_ok_elim {s : Settings} {now : Int} {jA jR : String} {tok : Token}
    {st : RedisState} {pair : TokenPair} {st1 : RedisState}
    (h : apiRefresh s now jA jR tok st = .ok (pair, st1)) :
    decodeToken s tok "refresh" now = .ok tok.claims
    ∧ isRevoked now tok.claims.jti st = false
    ∧ getRefresh now tok.claims.jti st ≠ none
    ∧ ∃ stMid : RedisState,
        st1 = revoke now tok.claims.jti tok.claims.exp stMid := by
  unfold apiRefresh at h
  cases hd : decodeToken s tok "refresh" now with
  | error e =>
    rw [hd] at h
    simp at h
  | ok payload =>
    have hpay : payload = tok.claims := ((decodeToken_ok_iff _ _ _ _ _).mp hd).1
    subst hpay
    rw [hd] at h
    simp only at h
    by_cases hrev : isRevoked now tok.claims.jti st
    · rw [if_pos hrev] at h
      simp at h
    · rw [if_neg hrev] at h
      by_cases hpres : getRefresh now tok.claims.jti st = none
      · rw [if_pos hpres] at h
        simp at h
      · rw [if_neg hpres] at h
        refine ⟨rfl, by simpa using hrev, hpres, ?_⟩
        cases hint : pyIntOfString tok.claims.sub with
        | none =>
          rw [hint] at h
          simp at h
        | some uid =>
          rw [hint] at h
          split at h
          · simp at h
          · split at h <;>
              first
                | (injection h with hpq
                   exact ⟨_, (congrArg Prod.snd hpq).symm⟩)
                | simp at h

/-- A well-formed refresh token carrying the audience/issuer values that
`decode_token` validates, signed with the refresh secret (such a token cannot be
produced by the service's own mint functions, which use the "auth_api" audience, but
it is the shape `decode_token` accepts). -/
def demoRefreshToken : Token :=
  ⟨⟨"1", "refresh", "j", 0, "your-auth", "your-api", 100⟩, "refresh-secret", "HS256"⟩

/-- Cache state holding the refresh entry for jti "j" until time 100. -/
def demoCacheState : RedisState := redisEmpty.rset 0 (.refresh "j") "p" 100

/-- State after a successful refresh of `demoRefreshToken` at time 0. -/
def demoRefreshedState : RedisState :=
  revoke 0 "j" 100
    (issueTokensForUser demoSettings 0 1 true true "na" "nr" demoCacheState).2

/-- The token pair minted by that successful refresh. -/
def demoNewPair : TokenPair :=
  ⟨makeAccessToken demoSettings 0 "1" "na" (some 900) 15 "access",
   makeRefreshToken demoSettings 0 "1" "nr" (some 86400) 1 "refresh"⟩

/-- C3: refresh tokens are single-use.  Once a refresh call has accepted a token
(decode succeeded, jti not revoked, cache entry present), every later presentation of
the same token is answered 401 — "Refresh token revoked" while the token is within
its signed lifetime, "Invalid or expired token." after it — never accepted again.
Moreover the revocation check precedes the cache-presence check: in ANY state whose
revoked marker is set for the token's jti, the refresh handler rejects with the
revoked error regardless of whether refresh:{jti} is still present (after the first
call the old cache entry indeed is still present, since `revoke` does not delete it). -/
theorem refresh_token_single_use
    (s : Settings) (st : RedisState) (tok : Token) (t1 t2 : Int)
    (jA jR jA2 jR2 : String) (pair : TokenPair) (st1 : RedisState)
    (h1 : apiRefresh s t1 jA jR tok st = .ok (pair, st1)) (h12 : t1 ≤ t2) :
    (apiRefresh s t2 jA2 jR2 tok st1 = .error ⟨401, "Refresh token revoked"⟩
      ∨ apiRefresh s t2 jA2 jR2 tok st1 = .error ⟨401, "Invalid or expired token."⟩)
    ∧ (t2 < tok.claims.exp →
        isRevoked t2 tok.claims.jti st1 = true
        ∧ apiRefresh s t2 jA2 jR2 tok st1 = .error ⟨401, "Refresh token revoked"⟩)
    ∧ (∀ st' : RedisState, t2 < tok.claims.exp →
        isRevoked t2 tok.claims.jti st' = true →
        apiRefresh s t2 jA2 jR2 tok st' = .error ⟨401, "Refresh token revoked"⟩) := by
  obtain ⟨hdec, hrev, hpres, stMid, hst1⟩ := apiRefresh_ok_elim h1
  obtain ⟨-, ⟨halg, hkey, haud, hiss, hexp1⟩, htype⟩ :=
    (decodeToken_ok_iff _ _ _ _ _).mp hdec
  have hdec2 : ∀ ht2 : t2 < tok.claims.exp,
      decodeToken s tok "refresh" t2 = .ok tok.claims :=
    fun ht2 => (decodeToken_ok_iff _ _ _ _ _).mpr
      ⟨rfl, ⟨halg, hkey, haud, hiss, ht2⟩, htype⟩
  have hrevoked : ∀ _ : t2 < tok.claims.exp,
      isRevoked t2 tok.claims.jti st1 = true := by
    intro ht2
    rw [hst1, isRevoked_after_revoke _ _ _ _ _ hexp1]
    simp [ht2]
  by_cases ht2 : t2 < tok.claims.exp
  · have hsecond := apiRefresh_revoked s t2 jA2 jR2 tok st1 (hdec2 ht2) (hrevoked ht2)
    exact ⟨Or.inl hsecond, fun _ => ⟨hrevoked ht2, hsecond⟩,
      fun st' ht2' hrev' => apiRefresh_revoked s t2 jA2 jR2 tok st' (hdec2 ht2') hrev'⟩
  · have hnone : jwtDecode tok (selectedSecret s "refresh") "your-api" "your-auth" t2
        = none :=
      (jwtDecode_none_iff _ _ _ _ _).mpr (fun hc => ht2 hc.2.2.2.2)
    have hsecond : apiRefresh s t2 jA2 jR2 tok st1
        = .error ⟨401, "Invalid or expired token."⟩ := by
      unfold apiRefresh
      rw [decodeToken_error_of_none hnone]
    exact ⟨Or.inr hsecond, fun ht2' => absurd ht2' ht2,
      fun st' ht2' hrev' => apiRefresh_revoked s t2 jA2 jR2 tok st' (hdec2 ht2') hrev'⟩

/-- C3 witness: the concrete two-call scenario at times 0 and 1: the first refresh of
`demoRefreshToken` succeeds, the second presentation finds the revoked marker and is
rejected with 401 "Refresh token revoked". -/
theorem refresh_token_single_use_witness :
    isRevoked 1 "j" demoRefreshedState = true
    ∧ apiRefresh demoSettings 1 "na2" "nr2" demoRefreshToken demoRefreshedState
        = .error ⟨401, "Refresh token revoked"⟩ :=
  (refresh_token_single_use demoSettings demoCacheState demoRefreshToken 0 1
    "na" "nr" "na2" "nr2" demoNewPair demoRefreshedState rfl (by decide)).2.1
    (by decide)

/-- Deleting a refresh entry does not touch the revoked marker of any jti. -/
theorem isRevoked_deleteRefresh (t : Int) (j j2 : String) (st : RedisState) :
    isRevoked t j (deleteRefresh j2 st) = isRevoked t j st := by
  unfold isRevoked deleteRefresh RedisState.rexists
  rw [rget_rdelete_other _ _ _ _ (by simp)]

/-- After deleting the refresh entry, the cache lookup for it is empty. -/
theorem getRefresh_deleteRefresh_self (t : Int) (j : String) (st : RedisState) :
    getRefresh t j (deleteRefresh j st) = none := by
  unfold getRefresh deleteRefresh
  rw [rget_rdelete_self]

/-- C5: logout is first-success-then-conflict.  For a validly signed, well-formed
refresh token (all of sub/jti/exp non-falsy) whose cache entry is present and not
revoked, the first logout call returns 204, sets the revoked marker and deletes the
cache entry; a second logout call with the same token — while the token is within its
signed lifetime — returns 409 "Session already closed or not found"; and whatever the
time of the second call, its error is never a 400 (400 is reserved for malformed
input, which this token is not). -/
theorem logout_first_success_then_conflict
    (s : Settings) (st : RedisState) (tok : Token) (t1 t2 : Int) (cu : Int)
    (hdec : decodeToken s tok "refresh" t1 = .ok tok.claims)
    (hsub : tok.claims.sub ≠ "") (hjti : tok.claims.jti ≠ "")
    (hexp0 : tok.claims.exp ≠ 0)
    (hrev : isRevoked t1 tok.claims.jti st = false)
    (hpres : getRefresh t1 tok.claims.jti st ≠ none)
    (h12 : t1 ≤ t2) :
    apiLogout s t1 cu cu tok st
        = .ok (deleteRefresh tok.claims.jti
            (revoke t1 tok.claims.jti tok.claims.exp st))
    ∧ isRevoked t1 tok.claims.jti
        (deleteRefresh tok.claims.jti (revoke t1 tok.claims.jti tok.claims.exp st))
        = true
    ∧ getRefresh t1 tok.claims.jti
        (deleteRefresh tok.claims.jti (revoke t1 tok.claims.jti tok.claims.exp st))
        = none
    ∧ (t2 < tok.claims.exp →
        apiLogout s t2 cu cu tok
            (deleteRefresh tok.claims.jti (revoke t1 tok.claims.jti tok.claims.exp st))
          = .error ⟨409, "Session already closed or not found"⟩)
    ∧ (∀ e : HttpError, apiLogout s t2 cu cu tok
            (deleteRefresh tok.claims.jti (revoke t1 tok.claims.jti tok.claims.exp st))
          = .error e → e.status ≠ 400) := by
  obtain ⟨-, ⟨halg, hkey, haud, hiss, hexp1⟩, htype⟩ :=
    (decodeToken_ok_iff _ _ _ _ _).mp hdec
  have hauth : checkAuthorization cu cu = none := by simp [checkAuthorization]
  have hfalsy : ¬(tok.claims.sub = "" ∨ tok.claims.jti = "" ∨ tok.claims.exp = 0) := by
    simp [hsub, hjti, hexp0]
  set st1 := deleteRefresh tok.claims.jti (revoke t1 tok.claims.jti tok.claims.exp st)
    with hst1
  have hfirst : apiLogout s t1 cu cu tok st = .ok st1 := by
    unfold apiLogout
    rw [hauth, hdec]
    dsimp only
    rw [if_neg (show ¬tok.claims.type ≠ "refresh" from by simp [htype])]
    rw [if_neg hfalsy]
    rw [if_neg (show ¬isRevoked t1 tok.claims.jti st = true from by simp [hrev])]
    rw [if_neg hpres]
  have h2 : isRevoked t1 tok.claims.jti st1 = true := by
    rw [hst1, isRevoked_deleteRefresh,
      isRevoked_after_revoke _ _ _ _ _ hexp1]
    simp [hexp1]
  have h3 : getRefresh t1 tok.claims.jti st1 = none := by
    rw [hst1]
    exact getRefresh_deleteRefresh_self _ _ _
  have hrev2 : ∀ _ : t2 < tok.claims.exp,
      isRevoked t2 tok.claims.jti st1 = true := by
    intro ht2
    rw [hst1, isRevoked_deleteRefresh, isRevoked_after_revoke _ _ _ _ _ hexp1]
    simp [ht2]
  have hsecond409 : ∀ ht2 : t2 < tok.claims.exp,
      apiLogout s t2 cu cu tok st1
        = .error ⟨409, "Session already closed or not found"⟩ := by
    intro ht2
    have hdec2 : decodeToken s tok "refresh" t2 = .ok tok.claims :=
      (decodeToken_ok_iff _ _ _ _ _).mpr ⟨rfl, ⟨halg, hkey, haud, hiss, ht2⟩, htype⟩
    unfold apiLogout
    rw [hauth, hdec2]
    dsimp only
    rw [if_neg (show ¬tok.claims.type ≠ "refresh" from by simp [htype])]
    rw [if_neg hfalsy]
    rw [if_pos (hrev2 ht2)]
  refine ⟨hfirst, h2, h3, hsecond409, ?_⟩
  intro e he
  by_cases ht2 : t2 < tok.claims.exp
  · rw [hsecond409 ht2] at he
    cases he
    decide
  · have hnone : jwtDecode tok (selectedSecret s "refresh") "your-api" "your-auth" t2
        = none :=
      (jwtDecode_none_iff _ _ _ _ _).mpr (fun hc => ht2 hc.2.2.2.2)
    have hsecond401 : apiLogout s t2 cu cu tok st1
        = .error ⟨401, "Invalid or expired token."⟩ := by
      unfold apiLogout
      rw [hauth, decodeToken_error_of_none hnone]
    rw [hsecond401] at he
    cases he
    decide

/-- C5 witness: the concrete double-logout: user 7 logs out `demoRefreshToken` at
time 0 (204, entry deleted, marker set), and the second logout at time 1 is answered
409 "Session already closed or not found". -/
theorem logout_first_success_then_conflict_witness :
    apiLogout demoSettings 1 7 7 demoRefreshToken
        (deleteRefresh "j" (revoke 0 "j" 100 demoCacheState))
      = .error ⟨409, "Session already closed or not found"⟩ :=
  (logout_first_success_then_conflict demoSettings demoCacheState demoRefreshToken
    0 1 7 rfl (by decide) (by decide) (by decide) rfl (by decide)
    (by decide)).2.2.2.1 (by decide)

/-- C9: the refresh endpoint's outcome is independent of the `{user_id}` path
parameter — the handler does not bind it, so any two path user ids give the identical
result — while logout and change-password run `check_authorization` first and answer
403 on any caller/path mismatch, whatever the rest of the request. -/
theorem refresh_ignores_path_user_id
    (u1 u2 : Int) (s : Settings) (now : Int) (jtiA jtiR : String) (tok : Token)
    (st : RedisState) (pu cu : Int) (tok2 : Token) (st2 : RedisState)
    (db : List PgUser) (curPw newPw : String) (hne : pu ≠ cu) :
    apiRefreshEndpoint u1 s now jtiA jtiR tok st
        = apiRefreshEndpoint u2 s now jtiA jtiR tok st
    ∧ apiLogout s now pu cu tok2 st2
        = .error ⟨403, "You can only access your own data."⟩
    ∧ apiChangePassword s now pu cu curPw newPw db st2
        = .error ⟨403, "You can only access your own data."⟩ := by
  have hauth : checkAuthorization pu cu
      = some ⟨403, "You can only access your own data."⟩ := by
    unfold checkAuthorization
    rw [if_pos hne]
  refine ⟨rfl, ?_, ?_⟩
  · unfold apiLogout
    rw [hauth]
  · unfold apiChangePassword
    rw [hauth]

/-- C9 witness: path user 1 versus 2 on the refresh route give the same result on a
concrete request, and logout / change-password by caller 2 against path user 1 are
both 403. -/
theorem refresh_ignores_path_user_id_witness :
    apiRefreshEndpoint 1 demoSettings 0 "na" "nr" demoRefreshToken demoCacheState
        = apiRefreshEndpoint 2 demoSettings 0 "na" "nr" demoRefreshToken demoCacheState
    ∧ apiLogout demoSettings 0 1 2 demoRefreshToken demoCacheState
        = .error ⟨403, "You can only access your own data."⟩
    ∧ apiChangePassword demoSettings 0 1 2 "old" "new" [] demoCacheState
        = .error ⟨403, "You can only access your own data."⟩ :=
  refresh_ignores_path_user_id 1 2 demoSettings 0 "na" "nr" demoRefreshToken
    demoCacheState 1 2 demoRefreshToken demoCacheState [] "old" "new" (by decide)

/-- `parse_row` uses its line-number argument only for warning output. -/
theorem parseRow_lineNum (row : Row) (a b : Nat) : parseRow row a = parseRow row b :=
  rfl

/-- The import loop's results do not depend on the running line number either. -/
theorem importRows_lineNum (bs : Nat) :
    ∀ (rows : List Row) (l l' : Nat) (c : ImportCounts) (batch : List EventRow)
      (db : List EventRow),
      importRows bs l c batch db rows = importRows bs l' c batch db rows := by
  intro rows
  induction rows with
  | nil => intro l l' c batch db; rfl
  | cons row rest ih =>
    intro l l' c batch db
    simp only [importRows]
    rw [parseRow_lineNum row l l']
    cases parseRow row l' with
    | none => exact ih _ _ _ _ _
    | some er =>
      dsimp only
      by_cases hb : (batch ++ [er]).length ≥ bs
      · rw [if_pos hb, if_pos hb]
        exact ih _ _ _ _ _
      · rw [if_neg hb, if_neg hb]
        exact ih _ _ _ _ _

/-- C8 (amended): CSV row validation is per-row and non-fatal.  Whenever `parse_row`
returns a validated record, every required column was present and non-null, the
stripped event identifier is non-empty, the stripped timestamp parses per
`datetime.fromisoformat` (a timezone offset is optional: naive instants are also
accepted), the user id parses as an integer, and a parsed non-dict JSON properties
value has been wrapped as an object under the key "value" (an empty cell becomes the
empty dict).  An invalid row costs the import loop exactly one read-counter tick and
changes nothing else — it aborts neither the batch nor the import. -/
theorem parse_row_validation_and_skip
    (row : Row) (lineNum : Nat) (r : EventRow) (bad : Row)
    (bs l : Nat) (c : ImportCounts) (batch : List EventRow) (db : List EventRow)
    (rest : List Row)
    (hsome : parseRow row lineNum = some r)
    (hbad : parseRow bad l = none) :
    ((∀ k ∈ requiredFields, ∃ v, rowLookup row k = some (some v))
      ∧ r.event_id ≠ ""
      ∧ (∃ raw, rowLookup row "occurred_at" = some (some raw)
          ∧ pyFromIsoformat (pyStrip raw) = some r.occurred_at)
      ∧ (∃ raw, rowLookup row "user_id" = some (some raw)
          ∧ pyIntOfString raw = some r.user_id)
      ∧ (∃ raw, rowLookup row "properties_json" = some (some raw)
          ∧ ((raw = "" ∧ r.properties = .obj [])
            ∨ (∃ v, pyJsonLoads raw = some v
                ∧ r.properties = (match v with
                    | .obj fs => PyJson.obj fs
                    | v2 => .obj [("value", v2)])))))
    ∧ importRows bs l c batch db (bad :: rest)
        = importRows bs l { c with totalRead := c.totalRead + 1 } batch db rest := by
  constructor
  · unfold parseRow at hsome
    by_cases hmiss : (requiredFields.filter (fun k =>
        match rowLookup row k with
        | some (some _) => false
        | _ => true)) ≠ []
    · rw [if_pos hmiss] at hsome
      exact absurd hsome (by simp)
    · rw [if_neg hmiss] at hsome
      rw [not_ne_iff] at hmiss
      have hreq : ∀ k ∈ requiredFields, ∃ v, rowLookup row k = some (some v) := by
        intro k hk
        have hpred : ¬((match rowLookup row k with
            | some (some _) => false
            | _ => true) = true) := by
          intro hp
          have hmem : k ∈ requiredFields.filter (fun k =>
              match rowLookup row k with
              | some (some _) => false
              | _ => true) := List.mem_filter.mpr ⟨hk, hp⟩
          rw [hmiss] at hmem
          exact absurd hmem (List.not_mem_nil k)
        cases hrl : rowLookup row k with
        | none => exact absurd (by rw [hrl]) hpred
        | some o =>
          cases o with
          | none => exact absurd (by rw [hrl]) hpred
          | some v => exact ⟨v, rfl⟩
      obtain ⟨rawId, h1⟩ := hreq "event_id" (by simp [requiredFields])
      obtain ⟨rawOcc, h2⟩ := hreq "occurred_at" (by simp [requiredFields])
      obtain ⟨rawUid, h3⟩ := hreq "user_id" (by simp [requiredFields])
      obtain ⟨rawType, h4⟩ := hreq "event_type" (by simp [requiredFields])
      obtain ⟨rawProps, h5⟩ := hreq "properties_json" (by simp [requiredFields])
      rw [h1, h2, h3, h4, h5] at hsome
      dsimp only at hsome
      split at hsome
      · exact absurd hsome (by simp)
      · next hid =>
        split at hsome
        · exact absurd hsome (by simp)
        · next dt hdt =>
          split at hsome
          · exact absurd hsome (by simp)
          · next uid huid =>
            split at hsome
            · exact absurd hsome (by simp)
            · next htype =>
              split at hsome
              · exact absurd hsome (by simp)
              · next p hp =>
                injection hsome with hr
                subst hr
                refine ⟨hreq, hid, ⟨rawOcc, h2, hdt⟩, ⟨rawUid, h3, huid⟩,
                  ⟨rawProps, h5, ?_⟩⟩
                by_cases hemp : rawProps = ""
                · rw [if_pos hemp] at hp
                  injection hp with hp2
                  exact Or.inl ⟨hemp, by rw [← hp2]⟩
                · rw [if_neg hemp] at hp
                  exact Or.inr ⟨p, hp, rfl⟩
  · simp only [importRows]
    rw [hbad]
    exact importRows_lineNum bs rest (l + 1) l _ _ _

/-- C8 counterexample: a CSV row whose timestamp carries no UTC offset.
`datetime.fromisoformat("2025-08-21T06:52:34")` succeeds and returns a NAIVE instant,
and `parse_row` returns the validated record anyway — so "the timestamp parses as a
timezone-aware instant" is not a necessary condition for acceptance: the claim as
stated fails on this input. -/
theorem parse_row_naive_timestamp_counterexample :
    parseRow
        [("event_id", some "e1"), ("occurred_at", some "2025-08-21T06:52:34"),
         ("user_id", some "7"), ("event_type", some "click"),
         ("properties_json", some "")] 2
      = some ⟨"e1", ⟨2025, 8, 21, 6, 52, 34, none⟩, 7, "click", .obj []⟩
    ∧ (PyDatetime.mk 2025 8 21 6 52 34 none).tzOffsetMinutes = none :=
  ⟨rfl, rfl⟩

/-- A fully valid CSV row: offset-carrying timestamp and a non-dict JSON properties
value. -/
def cValidRow : Row :=
  [("event_id", some "e1"), ("occurred_at", some "2025-08-21T06:52:34+03:00"),
   ("user_id", some "7"), ("event_type", some "click"),
   ("properties_json", some "5")]

/-- The record `parse_row` produces for `cValidRow`: note the wrapped properties. -/
def cValidParsed : EventRow :=
  ⟨"e1", ⟨2025, 8, 21, 6, 52, 34, some 180⟩, 7, "click", .obj [("value", .num 5)]⟩

/-- An invalid CSV row (all but one required column missing). -/
def cBadRow : Row := [("event_id", some "e1")]

/-- C8 witness: the theorem applied to the concrete valid and invalid rows: the
validated record's user id comes from the "user_id" cell, its properties were
wrapped, and the invalid row costs the import loop exactly the read counter. -/
theorem parse_row_validation_and_skip_witness :
    ((∃ raw, rowLookup cValidRow "user_id" = some (some raw)
        ∧ pyIntOfString raw = some cValidParsed.user_id)
      ∧ cValidParsed.event_id ≠ "")
    ∧ importRows 2 2 ⟨0, 0, 0, 0⟩ [] [] [cBadRow]
        = importRows 2 2 ⟨1, 0, 0, 0⟩ [] [] [] :=
  let h := parse_row_validation_and_skip cValidRow 2 cValidParsed cBadRow 2 2
    ⟨0, 0, 0, 0⟩ [] [] [] rfl rfl
  ⟨⟨h.1.2.2.2.1, h.1.2.1⟩, h.2⟩

end EventsApi
